import Mathlib

/-
  Verification development for the quadruped motion-control example
  (kits/quad/src/quadruped_control.cpp and kits/quad/src/robot/quadruped_leg.hpp).

  The control thread of quadruped_control.cpp is embedded as a pure step
  function over an explicit loop state.  Wall-clock instants are modelled as
  rational numbers (seconds).  The several steady_clock::now() calls inside a
  single loop iteration are collapsed to one instant, the tick time `now`.

  Eigen rotation algebra (Matrix3d, AngleAxisd) is an external collaborator of
  this repository; it is embedded abstractly as a record of the operations the
  control code invokes on rotations (RotOps), together with two concrete
  interpretations used by individual claims: real 3x3 rotation matrices built
  by the Rodrigues formula, and the coaxial model (all rotations about one
  fixed axis, represented by the signed rotation angle), on which the Eigen
  operations act as stated in the coax definitions below.
-/

namespace QuadCtrl

/-- The ctrl_state_type enumeration of quadruped_control.cpp (lines 19-31). -/
inductive ctrl_state_type where
  | HEXA_CTRL_STAND_UP_PLAN
  | HEXA_CTRL_STAND_UP
  | QUAD_CTRL_STAND_UP1
  | QUAD_CTRL_STAND_UP2
  | QUAD_CTRL_STAND_UP3
  | QUAD_CTRL_NORMAL_LEFT
  | QUAD_CTRL_NORMAL_RIGHT
  | QUAD_CTRL_ORIENT
  | QUAD_CTRL_PASSIVE_ORIENT
  | CTRL_STATES_COUNT
  deriving DecidableEq, Repr

/-- Quadruped::SwingMode as used by quadruped_control.cpp: the two virtual-leg
    groups of the alternating gait. -/
inductive SwingMode where
  | swing_mode_virtualLeg1
  | swing_mode_virtualLeg2
  deriving DecidableEq, Repr

/-- startup_seconds = 1.9 (quadruped_control.cpp line 33). -/
def startup_seconds : ℚ := 19/10

/-- leg_swing_time = 0.5 (quadruped_control.cpp line 96). -/
def leg_swing_time : ℚ := 1/2

/-- interval_ms = 5, the target control period in milliseconds
    (quadruped_control.cpp line 79). -/
def interval_ms : ℤ := 5

/-- The operations the control loop performs on Eigen rotations, abstracted
    over the representation type R:  Matrix3d::Identity(), matrix product,
    transpose, the AngleAxisd decomposition (angle and axis of a rotation),
    and recomposition of an angle and an axis into a rotation matrix. -/
structure RotOps (R : Type) where
  ident : R
  mul : R → R → R
  transp : R → R
  angleOf : R → ℝ
  axisOf : R → ℝ × ℝ × ℝ
  ofAA : ℝ → ℝ × ℝ × ℝ → R

/-- The values the environment hands the control thread during one tick:
    the joystick sample read through the InputManager (quit button, velocity
    commands, the two raw vertical axes) and the values returned by the
    Quadruped object during this tick (getBodyR and the three boolean
    returns of spreadAllLegs / pushAllLegs / prepareQuadMode). -/
structure Env (R : Type) where
  quitPushed : Bool
  translationVelocityCmd : ℝ × ℝ × ℝ
  rotationVelocityCmd : ℝ × ℝ × ℝ
  rightVertRaw : ℝ
  leftVertRaw : ℝ
  bodyR : R
  spreadAllLegsRet : Bool
  pushAllLegsRet : Bool
  prepareQuadModeRet : Bool

/-- The mutable state the control thread carries across ticks:
    cur_ctrl_state, state_enter_time, balance_body_R and control_R
    (quadruped_control.cpp lines 76, 86, 99, 102). -/
structure LoopState (R : Type) where
  cur_ctrl_state : ctrl_state_type
  state_enter_time : ℚ
  balance_body_R : R
  control_R : R

/-- The externally visible calls one tick makes on the application object and
    the Quadruped object; the argument values are the ones the source passes. -/
inductive Action (R : Type) where
  | appExit
  | planStandUpTraj (duration : ℚ)
  | execStandUpTraj (t : ℚ)
  | spreadAllLegs
  | pushAllLegs (t duration : ℚ)
  | prepareQuadMode
  | startBodyRUpdate
  | runTest (mode : SwingMode) (t duration : ℚ)
  | prepareTrajectories (mode : SwingMode) (duration : ℚ)
  | reOrient (r : R)

/-- The target_body_R construction of the QUAD_CTRL_ORIENT state
    (quadruped_control.cpp lines 244-246):
    AngleAxisd(0.0/180*pi, UnitZ) * AngleAxisd(rightVertRaw*16.0/180*pi, UnitY)
    * AngleAxisd(leftVertRaw*16.0/180*pi, UnitX), left associated as in C++. -/
noncomputable def orientTarget {R : Type} (ops : RotOps R) (rv lv : ℝ) : R :=
  ops.mul
    (ops.mul (ops.ofAA (0/180*Real.pi) (0, 0, 1))
             (ops.ofAA (rv*16/180*Real.pi) (0, 1, 0)))
    (ops.ofAA (lv*16/180*Real.pi) (1, 0, 0))

/-- One iteration of the control loop body (quadruped_control.cpp lines
    106-273) after the wait: the quit-button check followed by the control
    state machine switch.  `now` is the tick instant (the steady_clock reads
    of this iteration collapsed); the function returns the successor loop
    state and the list of calls issued during the tick, in program order.
    state_run_time is now - state_enter_time, and on every transition that
    the source accompanies with state_enter_time = now(), the new
    state_enter_time is `now`. -/
noncomputable def step {R : Type} (ops : RotOps R) (env : Env R) (now : ℚ)
    (s : LoopState R) : LoopState R × List (Action R) :=
  let pre : List (Action R) := if env.quitPushed then [Action.appExit] else []
  let rt : ℚ := now - s.state_enter_time
  match s.cur_ctrl_state with
  | .HEXA_CTRL_STAND_UP_PLAN =>
      ({ s with cur_ctrl_state := .HEXA_CTRL_STAND_UP, state_enter_time := now },
       pre ++ [Action.planStandUpTraj startup_seconds])
  | .HEXA_CTRL_STAND_UP =>
      -- the source transition (line 152) changes only cur_ctrl_state; it does
      -- not reset state_enter_time.
      (if startup_seconds ≤ rt then { s with cur_ctrl_state := .QUAD_CTRL_NORMAL_LEFT } else s,
       pre ++ [Action.execStandUpTraj rt])
  | .QUAD_CTRL_STAND_UP1 =>
      -- isFinished = quadruped->spreadAllLegs() is computed (its value is
      -- env.spreadAllLegsRet) but never branched on.
      (if startup_seconds ≤ rt then
         { s with cur_ctrl_state := .QUAD_CTRL_STAND_UP2, state_enter_time := now }
       else s,
       pre ++ [Action.spreadAllLegs])
  | .QUAD_CTRL_STAND_UP2 =>
      (if startup_seconds ≤ rt then
         { s with cur_ctrl_state := .QUAD_CTRL_STAND_UP3, state_enter_time := now }
       else s,
       pre ++ [Action.pushAllLegs rt startup_seconds] ++
         (if startup_seconds ≤ rt then [Action.startBodyRUpdate] else []))
  | .QUAD_CTRL_STAND_UP3 =>
      (if startup_seconds ≤ rt then
         { s with cur_ctrl_state := .QUAD_CTRL_PASSIVE_ORIENT,
                  balance_body_R := env.bodyR, state_enter_time := now }
       else s,
       pre ++ [Action.prepareQuadMode])
  | .QUAD_CTRL_NORMAL_LEFT =>
      (if leg_swing_time ≤ rt then
         { s with cur_ctrl_state := .QUAD_CTRL_NORMAL_RIGHT, state_enter_time := now }
       else s,
       pre ++ [Action.runTest SwingMode.swing_mode_virtualLeg1 rt leg_swing_time] ++
         (if leg_swing_time ≤ rt then
            [Action.prepareTrajectories SwingMode.swing_mode_virtualLeg2 leg_swing_time]
          else []))
  | .QUAD_CTRL_NORMAL_RIGHT =>
      (if leg_swing_time ≤ rt then
         { s with cur_ctrl_state := .QUAD_CTRL_NORMAL_LEFT, state_enter_time := now }
       else s,
       pre ++ [Action.runTest SwingMode.swing_mode_virtualLeg2 rt leg_swing_time] ++
         (if leg_swing_time ≤ rt then
            [Action.prepareTrajectories SwingMode.swing_mode_virtualLeg1 leg_swing_time]
          else []))
  | .QUAD_CTRL_ORIENT =>
      (s,
       pre ++ [Action.startBodyRUpdate,
               Action.reOrient (orientTarget ops env.rightVertRaw env.leftVertRaw)])
  | .QUAD_CTRL_PASSIVE_ORIENT =>
      -- bodyR = getBodyR(); diff = balance_body_R * bodyR.transpose();
      -- tmp_aa = AngleAxisd(diff); tmp_aa.angle() = 0.031 * tmp_aa.angle();
      -- control_R = control_R * tmp_aa.toRotationMatrix(); reOrient(control_R).
      let diff := ops.mul s.balance_body_R (ops.transp env.bodyR)
      let corr := ops.ofAA (0.031 * ops.angleOf diff) (ops.axisOf diff)
      let control' := ops.mul s.control_R corr
      ({ s with control_R := control' },
       pre ++ [Action.startBodyRUpdate, Action.reOrient control'])
  | .CTRL_STATES_COUNT => (s, pre)

/-- need_to_wait (quadruped_control.cpp line 110): the residual of the target
    period, max(0, duration_cast to milliseconds of
    prev_time + milliseconds(interval_ms) - now_time), with the clock in
    integer nanoseconds and duration_cast truncating toward zero (Int.div). -/
def needToWaitMs (prevNs nowNs : ℤ) : ℤ :=
  max 0 (Int.tdiv (prevNs + interval_ms * 1000000 - nowNs) 1000000)

/-- dt (quadruped_control.cpp line 115): the measured wall-clock delta between
    the instant re-read after the sleep and the previous tick instant. -/
def tickDt (prevNs nowNs : ℤ) : ℤ := nowNs - prevNs

/-- The stand-up trace of the control thread: state after k ticks, starting
    from the initial state of the thread (cur_ctrl_state = QUAD_CTRL_STAND_UP1,
    line 86; control_R = Identity, line 102; balance_body_R uninitialised in
    the source, modelled by an arbitrary initial value b; state_enter_time
    initially 0, the thread start instant).  Tick k+1 happens at instant
    (k+1)*h and reads environment envs (k+1). -/
noncomputable def standRun {R : Type} (ops : RotOps R) (envs : ℕ → Env R)
    (h : ℚ) (b : R) : ℕ → LoopState R
  | 0 => ⟨.QUAD_CTRL_STAND_UP1, 0, b, ops.ident⟩
  | k + 1 => (step ops (envs (k + 1)) ((k + 1 : ℕ) * h) (standRun ops envs h b k)).1

/-- A trace of the control thread from an arbitrary start state s0 with an
    arbitrary tick schedule ts: state after n ticks, tick n+1 reading
    envs (n+1) at instant ts (n+1). -/
noncomputable def runFrom {R : Type} (ops : RotOps R) (envs : ℕ → Env R)
    (ts : ℕ → ℚ) (s0 : LoopState R) : ℕ → LoopState R
  | 0 => s0
  | n + 1 => (step ops (envs (n + 1)) (ts (n + 1)) (runFrom ops envs ts s0 n)).1

/-- The swing modes a tick of output advances: the modes of the runTest calls
    in the emitted action list. -/
def runTestModes {R : Type} (acts : List (Action R)) : List SwingMode :=
  acts.filterMap (fun a => match a with
    | Action.runTest m _ _ => some m
    | _ => none)

/-- The coaxial interpretation of the Eigen rotation operations: the subgroup
    of rotations about one fixed axis u, a rotation represented by its signed
    angle.  Product is angle addition, transpose is angle negation, the
    AngleAxisd angle of the rotation is its coaxial angle and recomposition
    ofAA returns the angle (Eigen returns a nonnegative angle and flips the
    axis for a negative coaxial angle; after recomposition the two sign
    conventions produce the same coaxial rotation, which is what ofAA
    returns here). -/
noncomputable def coax : RotOps ℝ where
  ident := 0
  mul := fun a b => a + b
  transp := fun a => -a
  angleOf := fun a => a
  axisOf := fun _ => (0, 0, 1)
  ofAA := fun a _ => a

/-- One environment of the passive-balance closed loop: quiet joystick, the
    body orientation read back by getBodyR being the coaxial angle b. -/
def passiveEnv (b : ℝ) : Env ℝ :=
  ⟨false, (0, 0, 0), (0, 0, 0), 0, 0, b, false, false, false⟩

/-- The passive-balance closed loop in the coaxial model: the loop state after
    n ticks in QUAD_CTRL_PASSIVE_ORIENT with captured balance target angle θ
    and initial body angle b0, under the idealised plant in which getBodyR at
    each tick returns the initial body orientation composed with the
    correction rotation commanded by the preceding reOrient
    (coaxially: bodyR = b0 + control_R).  control_R starts at Identity
    (angle 0), as at line 102. -/
noncomputable def passiveRun (b0 θ : ℝ) : ℕ → LoopState ℝ
  | 0 => ⟨.QUAD_CTRL_PASSIVE_ORIENT, 0, θ, 0⟩
  | n + 1 =>
      (step coax (passiveEnv (b0 + (passiveRun b0 θ n).control_R)) 0
        (passiveRun b0 θ n)).1

/-- The angular error of the passive-balance closed loop after n ticks:
    the coaxial angle between the balance target and the body orientation. -/
noncomputable def passiveError (b0 θ : ℝ) (n : ℕ) : ℝ :=
  θ - (b0 + (passiveRun b0 θ n).control_R)

/-- The while loop of the control thread (line 106): starting at tick index i,
    with an iteration budget of `fuel`, the number of loop bodies executed
    before control_execute.load() is first observed false.  flag k is the
    value control_execute.load(memory_order_acquire) returns at the start of
    iteration k; the load is performed before every iteration. -/
def ticksFrom (flag : ℕ → Bool) : ℕ → ℕ → ℕ
  | _, 0 => 0
  | i, f + 1 => if flag i then ticksFrom flag (i + 1) f + 1 else 0

/-- The number of control-loop iterations executed from the start of the
    thread within an iteration budget of `fuel`. -/
def ticksRun (flag : ℕ → Bool) (fuel : ℕ) : ℕ := ticksFrom flag 0 fuel

/-- The ordered shutdown events of main (quadruped_control.cpp lines 277-280):
    app.exec() returns, control_execute.store(false) clears the stop flag,
    control_thread.join() joins the control thread, and main returns. -/
inductive MainEvent where
  | appExecReturns
  | storeControlExecuteFalse
  | joinControlThread
  | mainReturns
  deriving DecidableEq, Repr

/-- The shutdown sequence of main in program order (lines 277-280). -/
def mainShutdownEvents : List MainEvent :=
  [MainEvent.appExecReturns, MainEvent.storeControlExecuteFalse,
   MainEvent.joinControlThread, MainEvent.mainReturns]

/-- The real 3x3 matrix interpretation of the Eigen rotations. -/
abbrev Mat3 := Matrix (Fin 3) (Fin 3) ℝ

/-- The cross-product matrix of a vector (x, y, z). -/
def crossMat (u : ℝ × ℝ × ℝ) : Mat3 :=
  !![0, -u.2.2, u.2.1; u.2.2, 0, -u.1; -u.2.1, u.1, 0]

/-- AngleAxisd(a, u).toRotationMatrix() for a unit axis u, by the Rodrigues
    formula: I + sin a K + (1 - cos a) K^2 with K the cross-product matrix. -/
noncomputable def matOfAA (a : ℝ) (u : ℝ × ℝ × ℝ) : Mat3 :=
  1 + Real.sin a • crossMat u + (1 - Real.cos a) • (crossMat u * crossMat u)

/-- The matrix interpretation of the rotation operations: product and
    transpose are the matrix ones, the AngleAxisd angle of a rotation matrix
    is arccos((trace - 1)/2), its axis the normalised skew part, and
    recomposition is the Rodrigues formula. -/
noncomputable def matOps : RotOps Mat3 where
  ident := 1
  mul := fun a b => a * b
  transp := Matrix.transpose
  angleOf := fun M => Real.arccos ((Matrix.trace M - 1) / 2)
  axisOf := fun M =>
    let s := 2 * Real.sin (Real.arccos ((Matrix.trace M - 1) / 2))
    ((M 2 1 - M 1 2) / s, (M 0 2 - M 2 0) / s, (M 1 0 - M 0 1) / s)
  ofAA := matOfAA

/-- A plain executable interpretation of the rotation operations over ℤ used
    to instantiate trace lemmas on concrete inputs: the coaxial model with
    integer angles (product is addition, transpose is negation). -/
def intOps : RotOps ℤ where
  ident := 0
  mul := fun a b => a + b
  transp := fun a => -a
  angleOf := fun _ => 0
  axisOf := fun _ => (0, 0, 1)
  ofAA := fun _ _ => 0

/-- A concrete integer-coaxial environment, bodyR reading n, joystick quiet:
    used to instantiate trace lemmas on concrete inputs. -/
def intEnv (n : ℤ) : Env ℤ :=
  ⟨false, (0, 0, 0), (0, 0, 0), 0, 0, n, false, false, false⟩

/-- Squared distance of a foot target from the hip, in the leg frame. -/
def distSq (p : ℚ × ℚ × ℚ) : ℚ := p.1 ^ 2 + p.2.1 ^ 2 + p.2.2 ^ 2

/-- Modelled from the spec:  QuadLeg::computeIK — the implementation of the
    leg IK is not under src/ (only its declaration, quadruped_leg.hpp line
    28).  Per spec sections 4.1 and 8 it solves the two-link planar knee by
    the law of cosines and fails exactly when the target lies strictly
    outside the reachable workspace, the annulus between |l1 - l2| and
    l1 + l2 of distance from the hip; the comparisons are carried on squared
    distances, which is equivalent since both sides are nonnegative.  On
    success it returns the knee cosine that determines the solution branch
    continuous with the seed; the angle extraction itself (arccos, atan2) is
    the external kinematics library.  Failure returns none: no angle set at
    all, in particular no clamped or numerically invalid one. -/
def computeIK (l1 l2 : ℚ) (p : ℚ × ℚ × ℚ) : Option ℚ :=
  let c := (distSq p - l1 ^ 2 - l2 ^ 2) / (2 * l1 * l2)
  if 1 < c ∨ c < -1 then none else some c

/-- Modelled from the spec:  the per-leg command update of the controller
    tick (the Quadruped dispatch, quadruped.cpp, is not under src/).  Per
    spec sections 4.4 and 7, when the IK call for a leg fails the controller
    holds the previous tick command for that leg and reports the failure;
    when it succeeds the new solution is commanded. -/
def legCommandUpdate {A : Type} (prev : A) (ik : Option A) : A × Bool :=
  match ik with
  | some a => (a, false)
  | none => (prev, true)

/-- Helper: strictly outside the workspace annulus the knee cosine falls
    strictly outside [-1, 1], so computeIK fails. -/
lemma computeIK_eq_none_of_outside (l1 l2 : ℚ) (p : ℚ × ℚ × ℚ)
    (h1 : 0 < l1) (h2 : 0 < l2)
    (hout : (l1 + l2) ^ 2 < distSq p ∨ distSq p < (l1 - l2) ^ 2) :
    computeIK l1 l2 p = none := by
  have hden : 0 < 2 * l1 * l2 := by positivity
  unfold computeIK
  rcases hout with hfar | hnear
  · have : 1 < (distSq p - l1 ^ 2 - l2 ^ 2) / (2 * l1 * l2) := by
      rw [lt_div_iff₀ hden]
      nlinarith
    simp [this]
  · have : (distSq p - l1 ^ 2 - l2 ^ 2) / (2 * l1 * l2) < -1 := by
      rw [div_lt_iff₀ hden]
      nlinarith
    simp [this]

/-- C4: for every foot target strictly outside the reachable workspace
    (squared distance from hip above (l1 + l2)^2 or below (l1 - l2)^2, the
    squared form of the stated distance bounds), computeIK reports failure,
    returning none rather than any clamped angle set; and whenever it does
    return a value, that value is a numerically valid knee cosine in
    [-1, 1]. -/
theorem C4_computeIK_unreachable (l1 l2 : ℚ) (p : ℚ × ℚ × ℚ)
    (h1 : 0 < l1) (h2 : 0 < l2) :
    (((l1 + l2) ^ 2 < distSq p ∨ distSq p < (l1 - l2) ^ 2) →
       computeIK l1 l2 p = none) ∧
    (∀ c, computeIK l1 l2 p = some c → -1 ≤ c ∧ c ≤ 1) := by
  refine ⟨fun hout => computeIK_eq_none_of_outside l1 l2 p h1 h2 hout, ?_⟩
  intro c hc
  unfold computeIK at hc
  by_cases hbad : 1 < (distSq p - l1 ^ 2 - l2 ^ 2) / (2 * l1 * l2) ∨
      (distSq p - l1 ^ 2 - l2 ^ 2) / (2 * l1 * l2) < -1
  · simp [hbad] at hc
  · push_neg at hbad
    simp [hbad.1, hbad.2] at hc
    rw [← hc]
    exact ⟨hbad.2, hbad.1⟩

/-- Witness for C4 at a concrete unreachable target: links 1 and 1, target
    (3, 0, 0) at squared distance 9 > (1 + 1)^2. -/
theorem C4_computeIK_unreachable_witness :
    (0 : ℚ) < 1 ∧ ((1 : ℚ) + 1) ^ 2 < distSq (3, 0, 0) ∧
      computeIK 1 1 (3, 0, 0) = none :=
  ⟨by norm_num, by norm_num [distSq],
   (C4_computeIK_unreachable 1 1 (3, 0, 0) (by norm_num) (by norm_num)).1
     (Or.inl (by norm_num [distSq]))⟩

/-- C5: when the per-leg IK call fails during a tick, the per-leg command
    update holds the previous tick command for that leg and reports the
    failure, so the commanded value for that leg is unchanged on IK error;
    in particular, for a target strictly outside the workspace the command
    after the tick equals the previous command. -/
theorem C5_hold_previous_command_on_ik_failure {A : Type} (prev : A)
    (ik : Option A) (l1 l2 : ℚ) (p : ℚ × ℚ × ℚ) (prevc : ℚ)
    (h1 : 0 < l1) (h2 : 0 < l2)
    (hout : (l1 + l2) ^ 2 < distSq p ∨ distSq p < (l1 - l2) ^ 2) :
    (ik = none → legCommandUpdate prev ik = (prev, true)) ∧
    legCommandUpdate prevc (computeIK l1 l2 p) = (prevc, true) := by
  constructor
  · rintro rfl; rfl
  · rw [computeIK_eq_none_of_outside l1 l2 p h1 h2 hout]; rfl

/-- Witness for C5 at a concrete failing tick: previous knee cosine 1/2 is
    held and the failure reported for the unreachable target (3, 0, 0). -/
theorem C5_hold_previous_command_on_ik_failure_witness :
    (0 : ℚ) < 1 ∧ ((1 : ℚ) + 1) ^ 2 < distSq (3, 0, 0) ∧
      legCommandUpdate (1/2 : ℚ) (computeIK 1 1 (3, 0, 0)) = (1/2, true) :=
  ⟨by norm_num, by norm_num [distSq],
   (C5_hold_previous_command_on_ik_failure (0 : ℚ) none 1 1 (3, 0, 0) (1/2)
     (by norm_num) (by norm_num) (Or.inl (by norm_num [distSq]))).2⟩

/-- C9: the translation and rotation velocity commands read from the input
    device are never used by any control state: a tick whose environment
    differs only in getTranslationVelocityCmd and getRotationVelocityCmd
    values produces the identical successor state and the identical list of
    commands issued to the robot. -/
theorem C9_velocity_commands_have_no_effect {R : Type} (ops : RotOps R)
    (env : Env R) (now : ℚ) (s : LoopState R) (v w : ℝ × ℝ × ℝ) :
    step ops { env with translationVelocityCmd := v,
                        rotationVelocityCmd := w } now s
      = step ops env now s := by
  rcases env with ⟨q, tv, rv, rvr, lvr, br, f1, f2, f3⟩
  rcases s with ⟨c, e, b, r⟩
  cases c <;> rfl

/-- C8: in each of the three stand-up phases the per-phase completion flag
    (the boolean returned by spreadAllLegs, pushAllLegs, prepareQuadMode) is
    never branched on: a tick whose environment differs only in those three
    returned flags produces the identical successor state and identical
    issued commands, and the transition out of each phase occurs if and only
    if the elapsed time in the state has reached startup_seconds. -/
theorem C8_time_only_standup_transitions {R : Type} (ops : RotOps R)
    (env : Env R) (now : ℚ) (s : LoopState R) (x y z : Bool) (e : ℚ) (b c : R) :
    (step ops { env with spreadAllLegsRet := x, pushAllLegsRet := y,
                         prepareQuadModeRet := z } now s
       = step ops env now s) ∧
    ((step ops env now ⟨.QUAD_CTRL_STAND_UP1, e, b, c⟩).1.cur_ctrl_state
       = if startup_seconds ≤ now - e then .QUAD_CTRL_STAND_UP2
         else .QUAD_CTRL_STAND_UP1) ∧
    ((step ops env now ⟨.QUAD_CTRL_STAND_UP2, e, b, c⟩).1.cur_ctrl_state
       = if startup_seconds ≤ now - e then .QUAD_CTRL_STAND_UP3
         else .QUAD_CTRL_STAND_UP2) ∧
    ((step ops env now ⟨.QUAD_CTRL_STAND_UP3, e, b, c⟩).1.cur_ctrl_state
       = if startup_seconds ≤ now - e then .QUAD_CTRL_PASSIVE_ORIENT
         else .QUAD_CTRL_STAND_UP3) := by
  refine ⟨?_, ?_, ?_, ?_⟩
  · rcases env with ⟨q, tv, rv, rvr, lvr, br, f1, f2, f3⟩
    rcases s with ⟨c', e', b', r'⟩
    cases c' <;> rfl
  all_goals
    by_cases hrt : startup_seconds ≤ now - e <;> simp [step, hrt]

/-- Helper: a tick taken in one of the two steady-gait states lands in one of
    the two steady-gait states and advances exactly one swing group. -/
lemma gait_step_cases {R : Type} (ops : RotOps R) (env : Env R) (now : ℚ)
    (s : LoopState R)
    (hs : s.cur_ctrl_state = .QUAD_CTRL_NORMAL_LEFT ∨
          s.cur_ctrl_state = .QUAD_CTRL_NORMAL_RIGHT) :
    ((step ops env now s).1.cur_ctrl_state = .QUAD_CTRL_NORMAL_LEFT ∨
     (step ops env now s).1.cur_ctrl_state = .QUAD_CTRL_NORMAL_RIGHT) ∧
    (runTestModes (step ops env now s).2 = [SwingMode.swing_mode_virtualLeg1] ∨
     runTestModes (step ops env now s).2 = [SwingMode.swing_mode_virtualLeg2]) := by
  rcases s with ⟨cs, e, b, c⟩
  rcases hs with h | h <;> subst h <;>
    by_cases hrt : leg_swing_time ≤ now - e <;>
    by_cases hq : env.quitPushed <;>
    simp [step, hrt, hq, runTestModes]

/-- C2: in QUAD_CTRL_NORMAL_LEFT every tick advances the group-A swing
    (runTest with swing_mode_virtualLeg1 at the elapsed time in the state)
    and, exactly when that elapsed time reaches leg_swing_time, transitions
    to QUAD_CTRL_NORMAL_RIGHT while preparing the group-B swing trajectory;
    symmetrically from QUAD_CTRL_NORMAL_RIGHT back; and along any run that
    starts in QUAD_CTRL_NORMAL_LEFT the state stays in the two steady-gait
    states forever and every tick advances exactly one swing group, so the
    two groups are never simultaneously swinging. -/
theorem C2_steady_gait_alternation {R : Type} (ops : RotOps R)
    (envs : ℕ → Env R) (ts : ℕ → ℚ) (env : Env R) (now e : ℚ) (b c : R) :
    (step ops env now ⟨.QUAD_CTRL_NORMAL_LEFT, e, b, c⟩
      = (if leg_swing_time ≤ now - e then
           ⟨.QUAD_CTRL_NORMAL_RIGHT, now, b, c⟩
         else ⟨.QUAD_CTRL_NORMAL_LEFT, e, b, c⟩,
         (if env.quitPushed then [Action.appExit] else []) ++
           [Action.runTest SwingMode.swing_mode_virtualLeg1 (now - e)
              leg_swing_time] ++
           (if leg_swing_time ≤ now - e then
              [Action.prepareTrajectories SwingMode.swing_mode_virtualLeg2
                 leg_swing_time]
            else []))) ∧
    (step ops env now ⟨.QUAD_CTRL_NORMAL_RIGHT, e, b, c⟩
      = (if leg_swing_time ≤ now - e then
           ⟨.QUAD_CTRL_NORMAL_LEFT, now, b, c⟩
         else ⟨.QUAD_CTRL_NORMAL_RIGHT, e, b, c⟩,
         (if env.quitPushed then [Action.appExit] else []) ++
           [Action.runTest SwingMode.swing_mode_virtualLeg2 (now - e)
              leg_swing_time] ++
           (if leg_swing_time ≤ now - e then
              [Action.prepareTrajectories SwingMode.swing_mode_virtualLeg1
                 leg_swing_time]
            else []))) ∧
    (∀ n : ℕ,
      ((runFrom ops envs ts ⟨.QUAD_CTRL_NORMAL_LEFT, e, b, c⟩ n).cur_ctrl_state
          = .QUAD_CTRL_NORMAL_LEFT ∨
       (runFrom ops envs ts ⟨.QUAD_CTRL_NORMAL_LEFT, e, b, c⟩ n).cur_ctrl_state
          = .QUAD_CTRL_NORMAL_RIGHT) ∧
      (runTestModes (step ops (envs (n + 1)) (ts (n + 1))
           (runFrom ops envs ts ⟨.QUAD_CTRL_NORMAL_LEFT, e, b, c⟩ n)).2
          = [SwingMode.swing_mode_virtualLeg1] ∨
       runTestModes (step ops (envs (n + 1)) (ts (n + 1))
           (runFrom ops envs ts ⟨.QUAD_CTRL_NORMAL_LEFT, e, b, c⟩ n)).2
          = [SwingMode.swing_mode_virtualLeg2])) := by
  refine ⟨?_, ?_, ?_⟩
  · by_cases hrt : leg_swing_time ≤ now - e <;> simp [step, hrt]
  · by_cases hrt : leg_swing_time ≤ now - e <;> simp [step, hrt]
  · intro n
    have hmem : ∀ m : ℕ,
        (runFrom ops envs ts ⟨.QUAD_CTRL_NORMAL_LEFT, e, b, c⟩ m).cur_ctrl_state
          = .QUAD_CTRL_NORMAL_LEFT ∨
        (runFrom ops envs ts ⟨.QUAD_CTRL_NORMAL_LEFT, e, b, c⟩ m).cur_ctrl_state
          = .QUAD_CTRL_NORMAL_RIGHT := by
      intro m
      induction m with
      | zero => exact Or.inl rfl
      | succ k ih =>
          exact (gait_step_cases ops (envs (k + 1)) (ts (k + 1)) _ ih).1
    exact ⟨hmem n,
      (gait_step_cases ops (envs (n + 1)) (ts (n + 1)) _ (hmem n)).2⟩

/-- C6 counterexample: the claim that the BodyPose correction consumes the
    measured dt is false on the code.  Two passive-balance ticks that differ
    only in the tick instant (5 ms versus 55 ms since the previous tick, i.e.
    measured dt 0.005 s versus 0.055 s) produce the identical successor state
    (identical accumulated control_R) and identical issued commands: the
    correction is the fixed gain 0.031 of the orientation discrepancy per
    tick, with no dt factor. -/
theorem C6_counterexample_correction_ignores_dt :
    (5 : ℚ)/1000 ≠ 55/1000 ∧
    step coax (passiveEnv 0) (5/1000)
        ⟨.QUAD_CTRL_PASSIVE_ORIENT, 0, 1, 0⟩
      = step coax (passiveEnv 0) (55/1000)
        ⟨.QUAD_CTRL_PASSIVE_ORIENT, 0, 1, 0⟩ :=
  ⟨by norm_num, rfl⟩

/-- C6 (amended): each tick sleeps only the non-negative residual of the 5 ms
    target period (zero sleep, hence an immediate next tick, once computation
    has overrun the period), and dt is computed as the actual wall-clock
    delta since the previous tick; the gait phase advance consumes the actual
    measured elapsed wall-clock time in the state (runTest receives
    now - state_enter_time, so an overrun tick advances the phase by the
    larger measured amount with no catch-up burst); but the BodyPose
    correction of QUAD_CTRL_PASSIVE_ORIENT is a fixed per-tick gain that does
    not consume the measured dt: the whole passive tick is invariant under
    the tick instant. -/
theorem C6_timing_amended {R : Type} (ops : RotOps R) (env : Env R) :
    (∀ p n : ℤ, 0 ≤ needToWaitMs p n) ∧
    (∀ p n : ℤ, p + interval_ms * 1000000 ≤ n → needToWaitMs p n = 0) ∧
    (∀ p n : ℤ, tickDt p n = n - p) ∧
    (∀ (now e : ℚ) (b c : R),
       Action.runTest SwingMode.swing_mode_virtualLeg1 (now - e) leg_swing_time
         ∈ (step ops env now ⟨.QUAD_CTRL_NORMAL_LEFT, e, b, c⟩).2) ∧
    (∀ (now now' e : ℚ) (b c : R),
       step ops env now ⟨.QUAD_CTRL_PASSIVE_ORIENT, e, b, c⟩
         = step ops env now' ⟨.QUAD_CTRL_PASSIVE_ORIENT, e, b, c⟩) := by
  refine ⟨fun p n => le_max_left 0 _, fun p n hpn => ?_, fun p n => rfl,
          fun now e b c => ?_, fun now now' e b c => rfl⟩
  · unfold needToWaitMs
    have h1 : 0 ≤ Int.tdiv (-(p + interval_ms * 1000000 - n)) 1000000 :=
      Int.tdiv_nonneg (by omega) (by norm_num)
    rw [Int.neg_tdiv] at h1
    omega
  · by_cases hrt : leg_swing_time ≤ now - e <;> simp [step, hrt]

/-- Witness for C6 (amended) at a concrete overrun: the previous tick at
    0 ns, the current instant at 55 ms, residual sleep 0. -/
theorem C6_timing_amended_witness :
    (0 : ℤ) + interval_ms * 1000000 ≤ 55000000 ∧
      needToWaitMs 0 55000000 = 0 :=
  ⟨by norm_num [interval_ms],
   (C6_timing_amended coax (passiveEnv 0)).2.1 0 55000000
     (by norm_num [interval_ms])⟩

/-- Helper: the while loop executes exactly n bodies when the stop flag is
    first observed false at iteration n, for any sufficient budget. -/
lemma ticksFrom_eq_of_firstFalse (flag : ℕ → Bool) :
    ∀ (n i fuel : ℕ), flag (i + n) = false →
      (∀ m, m < n → flag (i + m) = true) → n ≤ fuel →
      ticksFrom flag i fuel = n := by
  intro n
  induction n with
  | zero =>
      intro i fuel hf _ _
      cases fuel with
      | zero => rfl
      | succ f => simp [ticksFrom, show flag i = false by simpa using hf]
  | succ m ih =>
      intro i fuel hf hall hle
      obtain ⟨f, rfl⟩ : ∃ f, fuel = f + 1 := ⟨fuel - 1, by omega⟩
      have hi : flag i = true := by simpa using hall 0 (Nat.succ_pos m)
      have hshift : flag (i + 1 + m) = false := by
        have : i + 1 + m = i + (m + 1) := by omega
        rw [this]; exact hf
      have hallshift : ∀ j, j < m → flag (i + 1 + j) = true := by
        intro j hj
        have : i + 1 + j = i + (j + 1) := by omega
        rw [this]; exact hall (j + 1) (by omega)
      simp [ticksFrom, hi]
      exact ih (i + 1) f hshift hallshift (by omega)

/-- C7: the control loop checks the stop flag at the start of every tick and
    terminates at its first observed clearing: if the flag reads false at
    iteration n and true at every earlier iteration, exactly n loop bodies
    execute.  On any tick whose joystick sample has the quit button pushed,
    the tick calls app.exit(), in every control state.  And in the shutdown
    sequence of main, app.exec() returning precedes the clearing of the stop
    flag, which precedes joining the control thread, which precedes main
    returning: the control thread is joined before process exit. -/
theorem C7_stop_flag_checked_and_joined {R : Type} (ops : RotOps R) :
    (∀ (flag : ℕ → Bool) (n fuel : ℕ), flag n = false →
       (∀ m, m < n → flag m = true) → n ≤ fuel → ticksRun flag fuel = n) ∧
    (∀ (env : Env R) (now : ℚ) (s : LoopState R), env.quitPushed = true →
       Action.appExit ∈ (step ops env now s).2) ∧
    (mainShutdownEvents.indexOf MainEvent.appExecReturns
       < mainShutdownEvents.indexOf MainEvent.storeControlExecuteFalse ∧
     mainShutdownEvents.indexOf MainEvent.storeControlExecuteFalse
       < mainShutdownEvents.indexOf MainEvent.joinControlThread ∧
     mainShutdownEvents.indexOf MainEvent.joinControlThread
       < mainShutdownEvents.indexOf MainEvent.mainReturns) := by
  refine ⟨fun flag n fuel hf hall hle =>
            ticksFrom_eq_of_firstFalse flag n 0 fuel (by simpa using hf)
              (fun m hm => by simpa using hall m hm) hle,
          fun env now s hq => ?_, by decide⟩
  rcases s with ⟨cs, e, b, c⟩
  cases cs <;> simp [step, hq]

/-- Witness for C7: a stop flag cleared at iteration 2 yields exactly two
    executed loop bodies within a budget of five. -/
theorem C7_stop_flag_checked_and_joined_witness :
    (fun k => decide (k < 2)) 2 = false ∧
      ticksRun (fun k => decide (k < 2)) 5 = 2 :=
  ⟨by decide,
   (C7_stop_flag_checked_and_joined intOps).1 (fun k => decide (k < 2)) 2 5
     (by decide) (fun m hm => by simpa using hm) (by norm_num)⟩

/-- Helper: closed form of the passive-balance closed loop in the coaxial
    model; the accumulated control_R after n ticks, with the state pinned in
    QUAD_CTRL_PASSIVE_ORIENT and the captured target unchanged. -/
lemma passiveRun_spec (b0 θ : ℝ) (n : ℕ) :
    passiveRun b0 θ n = ⟨.QUAD_CTRL_PASSIVE_ORIENT, 0, θ,
      (θ - b0) - (1 - 0.031) ^ n * (θ - b0)⟩ := by
  induction n with
  | zero =>
      show (⟨.QUAD_CTRL_PASSIVE_ORIENT, 0, θ, 0⟩ : LoopState ℝ) = _
      norm_num
  | succ k ih =>
      rw [passiveRun, ih]
      simp only [step, coax, passiveEnv]
      refine congrArg (fun x => LoopState.mk .QUAD_CTRL_PASSIVE_ORIENT 0 θ x) ?_
      ring

/-- C3: in QUAD_CTRL_PASSIVE_ORIENT every tick computes the orientation
    discrepancy between the captured balance target and the current body
    orientation (balance_body_R times the transpose of getBodyR), scales the
    rotation angle of that discrepancy by the fixed gain 0.031, accumulates
    the resulting correction rotation into the running control_R, and calls
    reOrient with the accumulated rotation; the state is never exited
    automatically; and in the coaxial closed loop, in which the body realises
    the commanded correction by the next tick, the angular error against the
    constant captured target decays geometrically with ratio 1 - 0.031 per
    tick. -/
theorem C3_passive_balance_correction {R : Type} (ops : RotOps R)
    (env : Env R) (now e : ℚ) (b c : R) :
    (step ops env now ⟨.QUAD_CTRL_PASSIVE_ORIENT, e, b, c⟩
      = (⟨.QUAD_CTRL_PASSIVE_ORIENT, e, b,
           ops.mul c (ops.ofAA
             (0.031 * ops.angleOf (ops.mul b (ops.transp env.bodyR)))
             (ops.axisOf (ops.mul b (ops.transp env.bodyR))))⟩,
         (if env.quitPushed then [Action.appExit] else []) ++
           [Action.startBodyRUpdate,
            Action.reOrient (ops.mul c (ops.ofAA
              (0.031 * ops.angleOf (ops.mul b (ops.transp env.bodyR)))
              (ops.axisOf (ops.mul b (ops.transp env.bodyR)))))])) ∧
    (∀ (b0 θ : ℝ) (n : ℕ),
       passiveError b0 θ n = (1 - 0.031) ^ n * (θ - b0)) := by
  constructor
  · rfl
  · intro b0 θ n
    unfold passiveError
    rw [passiveRun_spec]
    ring

/-- Witness for C3 triviality-free instantiation: two closed-loop ticks from
    initial error 1 leave angular error (1 - 0.031)^2. -/
theorem C3_passive_balance_correction_witness :
    passiveError 0 1 2 = (1 - 0.031) ^ 2 * (1 - 0) :=
  (C3_passive_balance_correction coax (passiveEnv 0) 0 0 0 0).2 0 1 2

/-- C10: in QUAD_CTRL_ORIENT the state never changes and each tick calls
    reOrient with a target built only from the two vertical joystick axes:
    the reOrient argument is exactly the orientTarget construction of the
    right and left raw vertical axes (so no other input affects it); in the
    rotation-matrix interpretation the Z-axis (yaw) factor has angle exactly
    0/180*pi = 0 and drops out, leaving the pitch rotation by
    rightVertRaw*16/180*pi about Y times the roll rotation by
    leftVertRaw*16/180*pi about X; and for a raw axis value of magnitude at
    most 1 the commanded angle magnitude never exceeds 16 degrees
    (16/180*pi radians). -/
theorem C10_orient_teleop_target {R : Type} (ops : RotOps R) (env : Env R)
    (now e : ℚ) (b c : R) (rv lv : ℝ) :
    (step ops env now ⟨.QUAD_CTRL_ORIENT, e, b, c⟩
      = (⟨.QUAD_CTRL_ORIENT, e, b, c⟩,
         (if env.quitPushed then [Action.appExit] else []) ++
           [Action.startBodyRUpdate,
            Action.reOrient
              (orientTarget ops env.rightVertRaw env.leftVertRaw)])) ∧
    (orientTarget matOps rv lv
       = matOfAA (rv*16/180*Real.pi) (0, 1, 0)
           * matOfAA (lv*16/180*Real.pi) (1, 0, 0)) ∧
    (|rv| ≤ 1 → |rv*16/180*Real.pi| ≤ 16/180*Real.pi) := by
  refine ⟨rfl, ?_, ?_⟩
  · have hz : matOfAA (0/180*Real.pi) (0, 0, 1) = 1 := by
      norm_num [matOfAA]
    show matOps.mul (matOps.mul (matOps.ofAA (0/180*Real.pi) (0, 0, 1))
        (matOps.ofAA (rv*16/180*Real.pi) (0, 1, 0)))
        (matOps.ofAA (lv*16/180*Real.pi) (1, 0, 0)) = _
    show (matOfAA (0/180*Real.pi) (0, 0, 1)
        * matOfAA (rv*16/180*Real.pi) (0, 1, 0))
        * matOfAA (lv*16/180*Real.pi) (1, 0, 0) = _
    rw [hz, one_mul]
  · intro hrv
    have hpi : (0:ℝ) ≤ 16/180*Real.pi := by positivity
    calc |rv*16/180*Real.pi| = |rv| * (16/180*Real.pi) := by
          rw [show rv*16/180*Real.pi = rv * (16/180*Real.pi) by ring,
              abs_mul, abs_of_nonneg hpi]
      _ ≤ 1 * (16/180*Real.pi) := mul_le_mul_of_nonneg_right hrv hpi
      _ = 16/180*Real.pi := one_mul _

/-- Witness for C10 at the extreme raw axis value 1: the commanded pitch
    magnitude is exactly the 16 degree bound. -/
theorem C10_orient_teleop_target_witness :
    |(1:ℝ)| ≤ 1 ∧ |(1:ℝ)*16/180*Real.pi| ≤ 16/180*Real.pi :=
  ⟨by norm_num,
   (C10_orient_teleop_target coax (passiveEnv 0) 0 0 0 0 1 0).2.2 (by norm_num)⟩

/-- Helper: the successor state of one tick taken in QUAD_CTRL_STAND_UP1. -/
lemma step_SU1 {R : Type} (ops : RotOps R) (env : Env R) (now e : ℚ)
    (b c : R) :
    (step ops env now ⟨.QUAD_CTRL_STAND_UP1, e, b, c⟩).1
      = if startup_seconds ≤ now - e then ⟨.QUAD_CTRL_STAND_UP2, now, b, c⟩
        else ⟨.QUAD_CTRL_STAND_UP1, e, b, c⟩ := by
  by_cases hrt : startup_seconds ≤ now - e <;> simp [step, hrt]

/-- Helper: the successor state of one tick taken in QUAD_CTRL_STAND_UP2. -/
lemma step_SU2 {R : Type} (ops : RotOps R) (env : Env R) (now e : ℚ)
    (b c : R) :
    (step ops env now ⟨.QUAD_CTRL_STAND_UP2, e, b, c⟩).1
      = if startup_seconds ≤ now - e then ⟨.QUAD_CTRL_STAND_UP3, now, b, c⟩
        else ⟨.QUAD_CTRL_STAND_UP2, e, b, c⟩ := by
  by_cases hrt : startup_seconds ≤ now - e <;> simp [step, hrt]

/-- Helper: the successor state of one tick taken in QUAD_CTRL_STAND_UP3;
    on transition the balance target captures the bodyR reading of the tick. -/
lemma step_SU3 {R : Type} (ops : RotOps R) (env : Env R) (now e : ℚ)
    (b c : R) :
    (step ops env now ⟨.QUAD_CTRL_STAND_UP3, e, b, c⟩).1
      = if startup_seconds ≤ now - e then
          ⟨.QUAD_CTRL_PASSIVE_ORIENT, now, env.bodyR, c⟩
        else ⟨.QUAD_CTRL_STAND_UP3, e, b, c⟩ := by
  by_cases hrt : startup_seconds ≤ now - e <;> simp [step, hrt]

/-- Helper: the phase portrait of the stand-up trace when the per-phase
    duration startup_seconds is an exact multiple N of the tick period h:
    phase 1 holds for ticks below N, phase 2 from tick N (entered at instant
    N*h = startup_seconds) up to 2N, phase 3 from 2N up to 3N, and tick 3N
    enters QUAD_CTRL_PASSIVE_ORIENT capturing the bodyR reading of that very
    tick; control_R stays at identity throughout. -/
lemma standRun_phases {R : Type} (ops : RotOps R) (envs : ℕ → Env R)
    (h : ℚ) (b : R) (N : ℕ) (hh : 0 < h) (hN : (N : ℚ) * h = startup_seconds) :
    ∀ k, k ≤ 3*N →
      (k < N ∧ standRun ops envs h b k
          = ⟨.QUAD_CTRL_STAND_UP1, 0, b, ops.ident⟩) ∨
      (N ≤ k ∧ k < 2*N ∧ standRun ops envs h b k
          = ⟨.QUAD_CTRL_STAND_UP2, startup_seconds, b, ops.ident⟩) ∨
      (2*N ≤ k ∧ k < 3*N ∧ standRun ops envs h b k
          = ⟨.QUAD_CTRL_STAND_UP3, 2*startup_seconds, b, ops.ident⟩) ∨
      (k = 3*N ∧ standRun ops envs h b k
          = ⟨.QUAD_CTRL_PASSIVE_ORIENT, 3*startup_seconds,
             (envs (3*N)).bodyR, ops.ident⟩) := by
  have hNpos : 0 < N := by
    rcases Nat.eq_zero_or_pos N with rfl | hp
    · exfalso; rw [Nat.cast_zero, zero_mul] at hN
      norm_num [startup_seconds] at hN
    · exact hp
  intro k
  induction k with
  | zero =>
      intro _
      exact Or.inl ⟨hNpos, rfl⟩
  | succ k ih =>
      intro hk3
      rcases ih (by omega) with ⟨hkN, hst⟩ | ⟨hNk, hk2, hst⟩ |
        ⟨h2k, hk3p, hst⟩ | ⟨hkeq, _⟩
      · -- currently in QUAD_CTRL_STAND_UP1, entered at 0
        by_cases hnext : k + 1 < N
        · left
          refine ⟨hnext, ?_⟩
          have hcast : ((k + 1 : ℕ) : ℚ) < (N : ℚ) := by exact_mod_cast hnext
          have hlt : ¬ (startup_seconds ≤ ((k + 1 : ℕ) : ℚ) * h - 0) := by
            push_neg
            calc ((k + 1 : ℕ) : ℚ) * h - 0 = ((k + 1 : ℕ) : ℚ) * h := by ring
              _ < (N : ℚ) * h := mul_lt_mul_of_pos_right hcast hh
              _ = startup_seconds := hN
          rw [standRun, hst, step_SU1, if_neg hlt]
        · have hkeqN : k + 1 = N := by omega
          right; left
          refine ⟨by omega, by omega, ?_⟩
          have hnow : ((k + 1 : ℕ) : ℚ) * h = startup_seconds := by
            rw [show ((k + 1 : ℕ) : ℚ) = (N : ℚ) by exact_mod_cast hkeqN, hN]
          have hge : startup_seconds ≤ ((k + 1 : ℕ) : ℚ) * h - 0 := by
            rw [sub_zero, hnow]
          rw [standRun, hst, step_SU1, if_pos hge, hnow]
      · -- currently in QUAD_CTRL_STAND_UP2, entered at startup_seconds = N*h
        by_cases hnext : k + 1 < 2*N
        · right; left
          refine ⟨by omega, hnext, ?_⟩
          have hcast : ((k + 1 : ℕ) : ℚ) < 2*(N : ℚ) := by exact_mod_cast hnext
          have hlt : ¬ (startup_seconds ≤
              ((k + 1 : ℕ) : ℚ) * h - startup_seconds) := by
            push_neg
            have hmul : ((k + 1 : ℕ) : ℚ) * h < 2*(N : ℚ) * h :=
              mul_lt_mul_of_pos_right hcast hh
            linarith [hN]
          rw [standRun, hst, step_SU2, if_neg hlt]
        · have hkeqN : k + 1 = 2*N := by omega
          right; right; left
          refine ⟨by omega, by omega, ?_⟩
          have hnow : ((k + 1 : ℕ) : ℚ) * h = 2*startup_seconds := by
            rw [show ((k + 1 : ℕ) : ℚ) = 2*(N : ℚ) by exact_mod_cast hkeqN,
                ← hN]
            ring
          have hge : startup_seconds ≤
              ((k + 1 : ℕ) : ℚ) * h - startup_seconds := by
            rw [hnow]; linarith
          rw [standRun, hst, step_SU2, if_pos hge, hnow]
      · -- currently in QUAD_CTRL_STAND_UP3, entered at 2*startup_seconds
        by_cases hnext : k + 1 < 3*N
        · right; right; left
          refine ⟨by omega, hnext, ?_⟩
          have hcast : ((k + 1 : ℕ) : ℚ) < 3*(N : ℚ) := by exact_mod_cast hnext
          have hlt : ¬ (startup_seconds ≤
              ((k + 1 : ℕ) : ℚ) * h - 2*startup_seconds) := by
            push_neg
            have hmul : ((k + 1 : ℕ) : ℚ) * h < 3*(N : ℚ) * h :=
              mul_lt_mul_of_pos_right hcast hh
            linarith [hN]
          rw [standRun, hst, step_SU3, if_neg hlt]
        · have hkeqN : k + 1 = 3*N := by omega
          right; right; right
          refine ⟨hkeqN, ?_⟩
          have hnow : ((k + 1 : ℕ) : ℚ) * h = 3*startup_seconds := by
            rw [show ((k + 1 : ℕ) : ℚ) = 3*(N : ℚ) by exact_mod_cast hkeqN,
                ← hN]
            ring
          have hge : startup_seconds ≤
              ((k + 1 : ℕ) : ℚ) * h - 2*startup_seconds := by
            rw [hnow]; linarith
          rw [standRun, hst, step_SU3, if_pos hge, hnow, hkeqN]
      · omega

/-- C1: starting in QUAD_CTRL_STAND_UP1 at t = 0 with startup_seconds = 1.9,
    on a uniform tick schedule whose period divides the phase duration
    exactly (N*h = startup_seconds), each of the three stand-up phases exits
    exactly when the elapsed time since that phase entry reaches
    startup_seconds, the per-phase entry timestamp being reset to the
    transition instant at every transition (entry instants 0, 1.9, 3.8), so
    after 3*1.9 s of elapsed time the machine is in QUAD_CTRL_PASSIVE_ORIENT
    with the captured balance target equal to the body orientation getBodyR
    returned at the StandUpPhase3 to PassiveBalance transition tick. -/
theorem C1_standup_sequence {R : Type} (ops : RotOps R) (envs : ℕ → Env R)
    (h : ℚ) (b : R) (N : ℕ) (hh : 0 < h)
    (hN : (N : ℚ) * h = startup_seconds) :
    (∀ k, k < N → standRun ops envs h b k
        = ⟨.QUAD_CTRL_STAND_UP1, 0, b, ops.ident⟩) ∧
    (∀ k, N ≤ k → k < 2*N → standRun ops envs h b k
        = ⟨.QUAD_CTRL_STAND_UP2, startup_seconds, b, ops.ident⟩) ∧
    (∀ k, 2*N ≤ k → k < 3*N → standRun ops envs h b k
        = ⟨.QUAD_CTRL_STAND_UP3, 2*startup_seconds, b, ops.ident⟩) ∧
    standRun ops envs h b (3*N)
      = ⟨.QUAD_CTRL_PASSIVE_ORIENT, 3*startup_seconds,
         (envs (3*N)).bodyR, ops.ident⟩ := by
  refine ⟨fun k hk => ?_, fun k hk1 hk2 => ?_, fun k hk1 hk2 => ?_, ?_⟩
  · rcases standRun_phases ops envs h b N hh hN k (by omega) with
      ⟨_, hst⟩ | ⟨hc, _, _⟩ | ⟨hc, _, _⟩ | ⟨hc, _⟩ <;> first | exact hst | omega
  · rcases standRun_phases ops envs h b N hh hN k (by omega) with
      ⟨hc, _⟩ | ⟨_, _, hst⟩ | ⟨hc, _, _⟩ | ⟨hc, _⟩ <;> first | exact hst | omega
  · rcases standRun_phases ops envs h b N hh hN k (by omega) with
      ⟨hc, _⟩ | ⟨_, hc, _⟩ | ⟨_, _, hst⟩ | ⟨hc, _⟩ <;> first | exact hst | omega
  · rcases standRun_phases ops envs h b N hh hN (3*N) (by omega) with
      ⟨hc, _⟩ | ⟨_, hc, _⟩ | ⟨_, hc, _⟩ | ⟨_, hst⟩ <;> first | exact hst | omega

/-- Witness for C1 with period h = 1.9 s, N = 1: after three ticks the
    machine is in QUAD_CTRL_PASSIVE_ORIENT with the balance target captured
    from the tick-3 body orientation reading. -/
theorem C1_standup_sequence_witness :
    (0 : ℚ) < 19/10 ∧ ((1:ℕ) : ℚ) * (19/10) = startup_seconds ∧
      standRun intOps (fun k => intEnv (k : ℤ)) (19/10) 5 3
        = ⟨.QUAD_CTRL_PASSIVE_ORIENT, 3*startup_seconds, 3, 0⟩ :=
  ⟨by norm_num, by norm_num [startup_seconds],
   by
     have := (C1_standup_sequence intOps (fun k => intEnv (k : ℤ)) (19/10) 5 1
       (by norm_num) (by norm_num [startup_seconds])).2.2.2
     simpa [intEnv, intOps] using this⟩

end QuadCtrl
